import Mathlib

/-!
Verification of the ArduFSM timed-state engine and the MultiSens protocol
states against their natural-language specification.

Shallow embedding notes:

* `TimedState::run` (libraries/TimedState, file TimedState.cpp) is embedded as
  `run` below.  The C++ fields `timer`, `flag_stop`, `duration`,
  `time_of_last_call` (all `unsigned long` / `int`) become `Nat`/`Bool` fields
  of the `TimedState` structure; times in this protocol are far below `2^32`,
  so `unsigned long` arithmetic is modelled as plain `Nat` arithmetic
  (no wrap-around occurs in any modelled scenario).
* The virtual hooks `s_setup`, `loop`, `s_finish` of a concrete subclass are
  collected in a `StateHooks` record; the per-subclass protected fields plus
  the shared globals form the `user` component of the state.
* Hardware and serial I/O (`Serial.print`, `digitalWrite`, device `doStuff`,
  `analogRead`) are external collaborators per the specification and have no
  FSM-visible state; they are omitted from the embedding.  The lick-sensor
  reading consumed by `set_licking_variables` is modelled as an
  environment-written boolean field.
-/

namespace ArduFSM

/-- Which of the three overridable hooks fired during a `run` call.
Used to instrument the engine so lifecycle claims can be stated as
facts about the emitted trace. -/
inductive HookCall : Type
  | setup
  | loop
  | finish
deriving DecidableEq, Repr

/-- The mutable fields of the C++ `TimedState` base class
(`timer`, `flag_stop`, `duration`, `time_of_last_call`), together with the
subclass-specific fields and the globals the hooks touch, collected in
`user`.  `timer = 0` is the inactive sentinel, exactly as in the source. -/
structure TimedState (σ : Type) : Type where
  timer : Nat
  flag_stop : Bool
  duration : Nat
  time_of_last_call : Nat
  user : σ
deriving DecidableEq

/-- The three overridable hooks of a `TimedState` subclass.  In the C++
source these are virtual member functions; each may read and write the
subclass fields, the shared globals (both inside `user`) and the
`duration`/`flag_stop` bookkeeping fields. -/
structure StateHooks (σ : Type) : Type where
  s_setup : TimedState σ → TimedState σ
  loop : TimedState σ → TimedState σ
  s_finish : TimedState σ → TimedState σ

variable {σ : Type}

/-- The state right after the first-call branch of `TimedState::run`:
`time_of_last_call` stamped, `s_setup()` run, `flag_stop = 0`,
`timer = time + duration` (with `duration` read after `s_setup`, which may
have changed it) — lines 9-14 of TimedState.cpp. -/
def afterSetup (H : StateHooks σ) (s : TimedState σ) (t : Nat) : TimedState σ :=
  let s1 := H.s_setup { s with time_of_last_call := t }
  { s1 with flag_stop := false, timer := t + s1.duration }

/-- The duration in force for the activation that starts at time `t`:
the value of `duration` after `s_setup` has run on the stamped state. -/
def activationDuration (H : StateHooks σ) (s : TimedState σ) (t : Nat) : Nat :=
  (H.s_setup { s with time_of_last_call := t }).duration

/-- Second half of `TimedState::run` (lines 16-24 of TimedState.cpp):
`if (flag_stop || (time >= timer)) { s_finish(); timer = 0; } else { loop(); }`.
The accumulated hook trace `tr` is extended with whichever hook fired. -/
def runPhase2 (H : StateHooks σ) (s : TimedState σ) (t : Nat) (tr : List HookCall) :
    TimedState σ × List HookCall :=
  if s.flag_stop = true ∨ s.timer ≤ t then
    ({ H.s_finish s with timer := 0 }, tr ++ [HookCall.finish])
  else
    (H.loop s, tr ++ [HookCall.loop])

/-- `TimedState::run(unsigned long time)` from TimedState.cpp, instrumented
with the list of hooks that fired during the call. -/
def run (H : StateHooks σ) (s : TimedState σ) (t : Nat) :
    TimedState σ × List HookCall :=
  if s.timer = 0 then
    runPhase2 H (afterSetup H s t) t [HookCall.setup]
  else
    runPhase2 H { s with time_of_last_call := t } t []

/-- Run the engine once per scheduler tick over a list of call times,
concatenating the hook traces. -/
def runSeq (H : StateHooks σ) (s : TimedState σ) : List Nat → TimedState σ × List HookCall
  | [] => (s, [])
  | t :: ts =>
    let r := run H s t
    let r2 := runSeq H r.1 ts
    (r2.1, r.2 ++ r2.2)

/-- The state after a sequence of `run` calls. -/
def runStates (H : StateHooks σ) (s : TimedState σ) (ts : List Nat) : TimedState σ :=
  (runSeq H s ts).1

/-- `ts` is one complete activation of the timed state from `s`: the timer
sentinel is inactive at the start, stays armed after every call but the last,
and is reset (back to the inactive sentinel) exactly by the last call. -/
def isActivation (H : StateHooks σ) (s : TimedState σ) (ts : List Nat) : Prop :=
  s.timer = 0 ∧ ts ≠ [] ∧
    (∀ n < ts.length - 1, (runStates H s (ts.take (n + 1))).timer ≠ 0) ∧
    (runStates H s ts).timer = 0

theorem runSeq_cons (H : StateHooks σ) (s : TimedState σ) (t : Nat) (ts : List Nat) :
    runSeq H s (t :: ts) =
      ((runSeq H (run H s t).1 ts).1, (run H s t).2 ++ (runSeq H (run H s t).1 ts).2) :=
  rfl

theorem runStates_cons (H : StateHooks σ) (s : TimedState σ) (t : Nat) (ts : List Nat) :
    runStates H s (t :: ts) = runStates H (run H s t).1 ts :=
  rfl

theorem runSeq_nil (H : StateHooks σ) (s : TimedState σ) : runSeq H s [] = (s, []) :=
  rfl

@[simp] theorem stamp_timer (s : TimedState σ) (t : Nat) :
    ({ s with time_of_last_call := t } : TimedState σ).timer = s.timer :=
  rfl

@[simp] theorem stamp_flag (s : TimedState σ) (t : Nat) :
    ({ s with time_of_last_call := t } : TimedState σ).flag_stop = s.flag_stop :=
  rfl

@[simp] theorem afterSetup_flag (H : StateHooks σ) (s : TimedState σ) (t : Nat) :
    (afterSetup H s t).flag_stop = false :=
  rfl

@[simp] theorem afterSetup_timer (H : StateHooks σ) (s : TimedState σ) (t : Nat) :
    (afterSetup H s t).timer = t + activationDuration H s t :=
  rfl

theorem runPhase2_finish (H : StateHooks σ) (s : TimedState σ) (t : Nat)
    (tr : List HookCall) (hc : s.flag_stop = true ∨ s.timer ≤ t) :
    runPhase2 H s t tr = ({ H.s_finish s with timer := 0 }, tr ++ [HookCall.finish]) := by
  unfold runPhase2
  rw [if_pos hc]

theorem runPhase2_loop (H : StateHooks σ) (s : TimedState σ) (t : Nat)
    (tr : List HookCall) (h1 : s.flag_stop = false) (h2 : t < s.timer) :
    runPhase2 H s t tr = (H.loop s, tr ++ [HookCall.loop]) := by
  unfold runPhase2
  rw [if_neg]
  rintro (hf | hl)
  · rw [h1] at hf
    exact Bool.false_ne_true hf
  · exact absurd hl (Nat.not_le.mpr h2)

theorem run_active (H : StateHooks σ) (s : TimedState σ) (t : Nat) (h : s.timer ≠ 0) :
    run H s t = runPhase2 H { s with time_of_last_call := t } t [] := by
  unfold run
  rw [if_neg h]

theorem run_inactive (H : StateHooks σ) (s : TimedState σ) (t : Nat) (h : s.timer = 0) :
    run H s t = runPhase2 H (afterSetup H s t) t [HookCall.setup] := by
  unfold run
  rw [if_pos h]

/-- A mid-activation call with the finish condition met: `s_finish` fires
and the sentinel is reset. -/
theorem run_active_finish (H : StateHooks σ) (s : TimedState σ) (t : Nat)
    (h : s.timer ≠ 0) (hc : s.flag_stop = true ∨ s.timer ≤ t) :
    run H s t =
      ({ H.s_finish { s with time_of_last_call := t } with timer := 0 },
        [HookCall.finish]) := by
  rw [run_active H s t h, runPhase2_finish]
  · rfl
  · simpa using hc

/-- A mid-activation call with the finish condition not met: `loop` fires. -/
theorem run_active_loop (H : StateHooks σ) (s : TimedState σ) (t : Nat)
    (h : s.timer ≠ 0) (h1 : s.flag_stop = false) (h2 : t < s.timer) :
    run H s t = (H.loop { s with time_of_last_call := t }, [HookCall.loop]) := by
  rw [run_active H s t h, runPhase2_loop]
  · rfl
  · simpa using h1
  · simpa using h2

/-- A first call whose post-setup duration is zero: `s_setup` and `s_finish`
both fire within the single call and the sentinel ends reset. -/
theorem run_inactive_zero (H : StateHooks σ) (s : TimedState σ) (t : Nat)
    (h : s.timer = 0) (hd : activationDuration H s t = 0) :
    run H s t =
      ({ H.s_finish (afterSetup H s t) with timer := 0 },
        [HookCall.setup, HookCall.finish]) := by
  rw [run_inactive H s t h, runPhase2_finish]
  · rfl
  · right
    rw [afterSetup_timer, hd]
    omega

/-- A first call whose post-setup duration is positive: `s_setup` then `loop`
fire and the timer is armed to `t + duration`. -/
theorem run_inactive_pos (H : StateHooks σ) (s : TimedState σ) (t : Nat)
    (h : s.timer = 0) (hd : 0 < activationDuration H s t) :
    run H s t = (H.loop (afterSetup H s t), [HookCall.setup, HookCall.loop]) := by
  rw [run_inactive H s t h, runPhase2_loop]
  · rfl
  · exact afterSetup_flag H s t
  · rw [afterSetup_timer]
    omega

/-- Mid-activation segment: starting with the timer armed, if every call but
the last leaves the timer armed and the last call resets it, the hook trace
is all `loop`s followed by one `finish`.  Needs only that the subclass
`loop` hook does not touch the timer (true of every subclass in States.cpp). -/
theorem runSeq_mid_trace (H : StateHooks σ) (hlt : ∀ u, (H.loop u).timer = u.timer) :
    ∀ (ts : List Nat) (s : TimedState σ), ts ≠ [] → s.timer ≠ 0 →
      (∀ n < ts.length - 1, (runStates H s (ts.take (n + 1))).timer ≠ 0) →
      (runStates H s ts).timer = 0 →
      (runSeq H s ts).2 = List.replicate (ts.length - 1) HookCall.loop ++ [HookCall.finish] := by
  intro ts
  induction ts with
  | nil => intro s hne; exact absurd rfl hne
  | cons t ts ih =>
    intro s _ hs hmid hfin
    cases ts with
    | nil =>
      rcases Decidable.em (s.flag_stop = true ∨ s.timer ≤ t) with hc | hc
      · rw [runSeq_cons, run_active_finish H s t hs hc]
        simp [runSeq_nil]
      · exfalso
        push_neg at hc
        have h1 : s.flag_stop = false := by simpa using hc.1
        have h2 : t < s.timer := hc.2
        have hr := run_active_loop H s t hs h1 h2
        have heq : (runStates H s [t]).timer = s.timer := by
          rw [runStates, runSeq_cons, hr]
          simp [runSeq_nil, hlt]
        exact hs (heq.symm.trans hfin)
    | cons t' ts' =>
      have hmid0 : (runStates H s [t]).timer ≠ 0 := by
        have := hmid 0 (by simp)
        simpa using this
      rcases Decidable.em (s.flag_stop = true ∨ s.timer ≤ t) with hc | hc
      · exfalso
        apply hmid0
        rw [runStates, runSeq_cons, run_active_finish H s t hs hc]
        simp [runSeq_nil]
      · push_neg at hc
        have h1 : s.flag_stop = false := by simpa using hc.1
        have h2 : t < s.timer := hc.2
        have hr := run_active_loop H s t hs h1 h2
        have hs1 : (H.loop { s with time_of_last_call := t }).timer ≠ 0 := by
          rw [hlt]
          simpa using hs
        have htail := ih (H.loop { s with time_of_last_call := t }) (by simp) hs1
          (fun n hn => by
            have := hmid (n + 1) (by simp at hn ⊢; omega)
            rw [show (t :: t' :: ts').take (n + 2) = t :: (t' :: ts').take (n + 1) from rfl,
              runStates_cons, hr] at this
            exact this)
          (by
            rw [runStates_cons, hr] at hfin
            exact hfin)
        rw [runSeq_cons, hr]
        simp only [htail]
        simp [List.replicate_succ]

/-- C1: for every TimedState and every activation (maximal run-call sequence
from the inactive sentinel until the sentinel is reset), `s_setup` fires
exactly once on the first call, `s_finish` exactly once on the last call,
and `loop` fires on the calls strictly in between, never after `s_finish`.
The hypothesis `hlt` records that the subclass `loop` hook leaves the engine
timer alone, as every subclass in States.cpp does. -/
theorem claim_C1_timed_state_lifecycle (σ : Type) (H : StateHooks σ)
    (hlt : ∀ u, (H.loop u).timer = u.timer)
    (s : TimedState σ) (ts : List Nat) (h : isActivation H s ts) :
    (runSeq H s ts).2 =
      HookCall.setup :: (List.replicate (ts.length - 1) HookCall.loop ++ [HookCall.finish]) := by
  obtain ⟨h0, hne, hmid, hfin⟩ := h
  cases ts with
  | nil => exact absurd rfl hne
  | cons t ts =>
    cases ts with
    | nil =>
      have hd : activationDuration H s t = 0 := by
        by_contra hd
        have hp := run_inactive_pos H s t h0 (Nat.pos_of_ne_zero hd)
        have heq : (runStates H s [t]).timer = t + activationDuration H s t := by
          rw [runStates, runSeq_cons, hp]
          simp [runSeq_nil, hlt]
        rw [runStates] at hfin
        rw [runStates] at heq
        omega
      rw [runSeq_cons, run_inactive_zero H s t h0 hd]
      simp [runSeq_nil]
    | cons t' ts' =>
      have hmid0 : (runStates H s [t]).timer ≠ 0 := by
        have := hmid 0 (by simp)
        simpa using this
      have hd : 0 < activationDuration H s t := by
        by_contra hd
        apply hmid0
        rw [runStates, runSeq_cons,
          run_inactive_zero H s t h0 (by omega : activationDuration H s t = 0)]
        simp [runSeq_nil]
      have hp := run_inactive_pos H s t h0 hd
      have hs1 : (H.loop (afterSetup H s t)).timer ≠ 0 := by
        rw [hlt, afterSetup_timer]
        omega
      have htail := runSeq_mid_trace H hlt (t' :: ts') (H.loop (afterSetup H s t))
        (by simp) hs1
        (fun n hn => by
          have := hmid (n + 1) (by simp at hn ⊢; omega)
          rw [show (t :: t' :: ts').take (n + 2) = t :: (t' :: ts').take (n + 1) from rfl,
            runStates_cons, hp] at this
          exact this)
        (by
          rw [runStates_cons, hp] at hfin
          exact hfin)
      rw [runSeq_cons, hp]
      simp only [htail]
      simp [List.replicate_succ]

/-- C10: a TimedState whose post-setup duration is zero runs `s_setup` and
`s_finish` in the same (first) call of the activation, with no `loop` call
in between, and deactivates itself by resetting the timer sentinel. -/
theorem claim_C10_zero_duration (σ : Type) (H : StateHooks σ) (s : TimedState σ) (t : Nat)
    (h0 : s.timer = 0) (hd : activationDuration H s t = 0) :
    (run H s t).2 = [HookCall.setup, HookCall.finish] ∧ (run H s t).1.timer = 0 := by
  rw [run_inactive_zero H s t h0 hd]
  exact ⟨rfl, rfl⟩

/-- Mid-activation segment ending at a deadline: starting with the timer
armed and the stop flag clear, if the stop flag is moreover observed clear
after each of the first `j` calls of this particular run — an
activation-local fact, so stop-early-capable subclasses such as
`StateResponseWindow` are covered on every activation in which the early
stop is never requested — then the calls strictly before the first one at
or past the deadline all fire `loop`, and that first call fires `finish`. -/
theorem runSeq_deadline_trace (H : StateHooks σ)
    (hlt : ∀ u, (H.loop u).timer = u.timer) :
    ∀ (j : Nat) (ts : List Nat) (s : TimedState σ), s.timer ≠ 0 → s.flag_stop = false →
      (∀ k < j, ts.getD k 0 < s.timer) → j < ts.length → s.timer ≤ ts.getD j 0 →
      (∀ k < j, (runStates H s (ts.take (k + 1))).flag_stop = false) →
      (runSeq H s (ts.take (j + 1))).2 =
        List.replicate j HookCall.loop ++ [HookCall.finish] := by
  intro j
  induction j with
  | zero =>
    intro ts s hs hf _ hj hat _
    cases ts with
    | nil => simp at hj
    | cons t ts' =>
      rw [show (t :: ts').take 1 = [t] from rfl, runSeq_cons,
        run_active_finish H s t hs (Or.inr hat)]
      simp [runSeq_nil]
  | succ j ih =>
    intro ts s hs hf hb hj hat hflag
    cases ts with
    | nil => simp at hj
    | cons t ts' =>
      have ht : t < s.timer := hb 0 (Nat.succ_pos j)
      have hr := run_active_loop H s t hs hf ht
      have hs1t : (H.loop { s with time_of_last_call := t }).timer = s.timer := by
        rw [hlt]
      have hs1f : (H.loop { s with time_of_last_call := t }).flag_stop = false := by
        have h0 := hflag 0 (Nat.succ_pos j)
        rw [show (t :: ts').take 1 = [t] from rfl, runStates_cons, hr] at h0
        exact h0
      have htail := ih ts' (H.loop { s with time_of_last_call := t })
        (by rw [hs1t]; exact hs) hs1f
        (fun k hk => by
          rw [hs1t]
          exact hb (k + 1) (Nat.succ_lt_succ hk))
        (by simpa [Nat.succ_lt_succ_iff] using hj)
        (by rw [hs1t]; exact hat)
        (fun k hk => by
          have h1 := hflag (k + 1) (Nat.succ_lt_succ hk)
          rw [show (t :: ts').take (k + 2) = t :: ts'.take (k + 1) from rfl,
            runStates_cons, hr] at h1
          exact h1)
      rw [show (t :: ts').take (j + 2) = t :: ts'.take (j + 1) from rfl, runSeq_cons, hr]
      simp only [htail]
      simp [List.replicate_succ]

/-- Same situation as `runSeq_deadline_trace`, for a subclass whose `loop`
hook is the inherited no-op (e.g. `StateErrorTimeout`): the resulting state
is `s_finish` applied at the deadline tick, with the sentinel reset. -/
theorem runSeq_deadline_state (H : StateHooks σ) (hid : ∀ u, H.loop u = u) :
    ∀ (j : Nat) (ts : List Nat) (s : TimedState σ), s.timer ≠ 0 → s.flag_stop = false →
      (∀ k < j, ts.getD k 0 < s.timer) → j < ts.length → s.timer ≤ ts.getD j 0 →
      (runSeq H s (ts.take (j + 1))).1 =
        { H.s_finish { s with time_of_last_call := ts.getD j 0 } with timer := 0 } := by
  intro j
  induction j with
  | zero =>
    intro ts s hs hf _ hj hat
    cases ts with
    | nil => simp at hj
    | cons t ts' =>
      rw [show (t :: ts').take 1 = [t] from rfl, runSeq_cons,
        run_active_finish H s t hs (Or.inr hat)]
      rfl
  | succ j ih =>
    intro ts s hs hf hb hj hat
    cases ts with
    | nil => simp at hj
    | cons t ts' =>
      have ht : t < s.timer := hb 0 (Nat.succ_pos j)
      rw [show (t :: ts').take (j + 2) = t :: ts'.take (j + 1) from rfl, runSeq_cons,
        run_active_loop H s t hs hf ht, hid]
      exact ih ts' { s with time_of_last_call := t } (by simpa using hs) (by simpa using hf)
        (fun k hk => by simpa using hb (k + 1) (Nat.succ_lt_succ hk))
        (by simpa [Nat.succ_lt_succ_iff] using hj)
        (by simpa using hat)

/-- C2 (amended): part 1 — for any subclass whose `loop` hook leaves the
engine timer alone, an activation starting at `t0` with post-setup duration
`d` on which the stop-early flag is never observed set before the deadline
tick (an activation-local hypothesis, so stop-early-capable subclasses such
as `StateResponseWindow` are covered on every activation that runs to
expiry) fires `s_finish` exactly on the first call whose time satisfies
`now ≥ t0 + d`, all strictly earlier calls firing `loop` (the first one also
`s_setup`).  Part 2 — if the stop-early flag is instead set by `loop` during
a tick, `s_finish` fires on the *immediately following* tick, whatever its
time (in particular before the deadline); it does not fire on the tick that
set the flag. -/
theorem claim_C2_finish_timing :
    (∀ (σ : Type) (H : StateHooks σ),
        (∀ u, (H.loop u).timer = u.timer) →
        ∀ (s : TimedState σ) (t0 : Nat) (ts : List Nat) (j : Nat),
          s.timer = 0 →
          (∀ k < j, (t0 :: ts).getD k 0 < t0 + activationDuration H s t0) →
          j < (t0 :: ts).length →
          t0 + activationDuration H s t0 ≤ (t0 :: ts).getD j 0 →
          (∀ k < j, (runStates H s ((t0 :: ts).take (k + 1))).flag_stop = false) →
          (runSeq H s ((t0 :: ts).take (j + 1))).2 =
            HookCall.setup :: (List.replicate j HookCall.loop ++ [HookCall.finish])) ∧
    (∀ (σ : Type) (H : StateHooks σ), (∀ u, (H.loop u).timer = u.timer) →
        ∀ (s : TimedState σ) (t t' : Nat), s.timer ≠ 0 → s.flag_stop = false →
          t < s.timer → (H.loop { s with time_of_last_call := t }).flag_stop = true →
          (run H s t).2 = [HookCall.loop] ∧
            (run H (run H s t).1 t').2 = [HookCall.finish]) := by
  constructor
  · intro σ H hlt s t0 ts j h0 hb hj hat hflag
    cases j with
    | zero =>
      have hd : activationDuration H s t0 = 0 := by
        have h := hat
        simp only [List.getD_cons_zero] at h
        omega
      rw [show (t0 :: ts).take 1 = [t0] from rfl, runSeq_cons,
        run_inactive_zero H s t0 h0 hd]
      simp [runSeq_nil]
    | succ j =>
      have hd : 0 < activationDuration H s t0 := by
        have := hb 0 (Nat.succ_pos j)
        simp only [List.getD_cons_zero] at this
        omega
      have hp := run_inactive_pos H s t0 h0 hd
      have hs1t : (H.loop (afterSetup H s t0)).timer = t0 + activationDuration H s t0 := by
        rw [hlt, afterSetup_timer]
      have hs1f : (H.loop (afterSetup H s t0)).flag_stop = false := by
        have hx := hflag 0 (Nat.succ_pos j)
        rw [show (t0 :: ts).take 1 = [t0] from rfl, runStates_cons, hp] at hx
        exact hx
      have htail := runSeq_deadline_trace H hlt j ts (H.loop (afterSetup H s t0))
        (by rw [hs1t]; omega)
        hs1f
        (fun k hk => by
          rw [hs1t]
          exact hb (k + 1) (Nat.succ_lt_succ hk))
        (by simpa [Nat.succ_lt_succ_iff] using hj)
        (by rw [hs1t]; exact hat)
        (fun k hk => by
          have hx := hflag (k + 1) (Nat.succ_lt_succ hk)
          rw [show (t0 :: ts).take (k + 2) = t0 :: ts.take (k + 1) from rfl,
            runStates_cons, hp] at hx
          exact hx)
      rw [show (t0 :: ts).take (j + 2) = t0 :: ts.take (j + 1) from rfl, runSeq_cons, hp]
      simp only [htail]
      simp [List.replicate_succ]
  · intro σ H hlt s t t' hs hf ht hset
    have hr := run_active_loop H s t hs hf ht
    refine ⟨by rw [hr], ?_⟩
    have h1 : (H.loop { s with time_of_last_call := t }).timer ≠ 0 := by
      rw [hlt]
      simpa using hs
    rw [hr, run_active_finish H _ t' h1 (Or.inl hset)]

/-- A minimal concrete subclass with the inherited no-op hooks
(the spec describes `setup`, `loop`, `finish` as overridable hooks with safe
no-op defaults); used to exercise the engine on concrete inputs. -/
def idHooks : StateHooks Unit where
  s_setup := id
  loop := id
  s_finish := id

/-- A minimal concrete subclass whose `loop` hook requests stop-early on
every tick, exercising the engine's early-termination path. -/
def stopHooks : StateHooks Unit where
  s_setup := id
  loop := fun s => { s with flag_stop := true }
  s_finish := id

/-- Modelled from the spec: the `TimedState` constructor (TimedState.h is not
under src/) stores the configured duration and starts with the timer at the
inactive sentinel and the stop flag clear. -/
def mkIdle (d : Nat) : TimedState Unit :=
  ⟨0, false, d, 0, ()⟩

/-- A mid-activation engine state: timer armed at deadline 100. -/
def midState : TimedState Unit :=
  ⟨100, false, 100, 0, ()⟩

/-- C2 counterexample: with duration 100 and ticks at times 0 and 1, `loop`
sets the stop-early flag during the tick at time 0, yet that tick's trace
contains no `finish`; `s_finish` fires on the following tick (time 1), which
is still far before the deadline `0 + 100`.  So "s_finish fires on that
earlier tick [the one that set the flag]" is false of the code. -/
theorem claim_C2_counterexample :
    ((runSeq stopHooks (mkIdle 100) [0]).2 = [HookCall.setup, HookCall.loop] ∧
      (runSeq stopHooks (mkIdle 100) [0]).1.flag_stop = true) ∧
    (runSeq stopHooks (mkIdle 100) [0, 1]).2 =
      [HookCall.setup, HookCall.loop, HookCall.finish] ∧
    (1 : Nat) < 0 + 100 := by
  decide

/-- Witness for C1: the no-op subclass with duration 3 and ticks at times
0, 1, 5 forms one activation whose trace is setup, loop, loop, finish. -/
theorem claim_C1_witness :
    isActivation idHooks (mkIdle 3) [0, 1, 5] ∧
      (runSeq idHooks (mkIdle 3) [0, 1, 5]).2 =
        HookCall.setup :: (List.replicate 2 HookCall.loop ++ [HookCall.finish]) :=
  ⟨by unfold isActivation; decide, claim_C1_timed_state_lifecycle Unit idHooks (fun u => rfl)
    (mkIdle 3) [0, 1, 5] (by unfold isActivation; decide)⟩

/-- Witness for C10: a subclass whose setup leaves duration 0 runs setup and
finish in the single first call and ends deactivated. -/
theorem claim_C10_witness :
    (run idHooks (mkIdle 0) 4).2 = [HookCall.setup, HookCall.finish] ∧
      (run idHooks (mkIdle 0) 4).1.timer = 0 :=
  claim_C10_zero_duration Unit idHooks (mkIdle 0) 4 rfl rfl

/-- The MultiSens FSM states.  Modelled from the spec (States.h of MultiSens
is not under src/): the eight states named in the MultiSens.ino overview and
dispatched on in `stateDependentOperations`. -/
inductive STATE_TYPE : Type
  | WAIT_TO_START_TRIAL
  | TRIAL_START
  | STIM_PERIOD
  | RESPONSE_WINDOW
  | REWARD
  | POST_REWARD_PAUSE
  | ERROR
  | INTER_TRIAL_INTERVAL
deriving DecidableEq, Repr

/-- `N_TRIAL_PARAMS` of the MultiSens protocol (States.cpp declares the
11-entry `param_abbrevs`/`param_values` tables). -/
def N_TRIAL_PARAMS : Nat := 11

/-- `N_TRIAL_RESULTS`: the result table has the two entries RESP, OUTC. -/
def N_TRIAL_RESULTS : Nat := 2

/-- `param_abbrevs` from States.cpp, fixing the index of each parameter. -/
def param_abbrevs : List String :=
  ["STPRIDX", "SPKRIDX", "STIMDUR", "REW", "REW_DUR",
   "IRI", "TO", "ITI", "RWIN", "MRT", "TOE"]

/-- Modelled from the spec: the `tpidx_*` index macros (States.h of MultiSens
is not under src/); each index is the position of the corresponding
abbreviation in the `param_abbrevs` table of States.cpp. -/
def tpidx_STPRIDX : Nat := 0

def tpidx_SPKRIDX : Nat := 1

def tpidx_STIM_DUR : Nat := 2

def tpidx_REW : Nat := 3

def tpidx_REW_DUR : Nat := 4

def tpidx_INTER_REWARD_INTERVAL : Nat := 5

def tpidx_ERROR_TIMEOUT : Nat := 6

def tpidx_ITI : Nat := 7

def tpidx_RESP_WIN_DUR : Nat := 8

def tpidx_MRT : Nat := 9

def tpidx_TERMINATE_ON_ERR : Nat := 10

/-- `tridx_RESPONSE` (result-table index of RESP). -/
def tridx_RESPONSE : Nat := 0

/-- `tridx_OUTCOME` (result-table index of OUTC). -/
def tridx_OUTCOME : Nat := 1

/-- Modelled from the spec: the GO response code (States.h of MultiSens is
not under src/).  `GO = 1` is forced by the protocol contract that `REW = 1`
means a rewarded trial and States.cpp's test `param_values[tpidx_REW] == GO`
for the hit path. -/
def GO : Int := 1

/-- Modelled from the spec: the NOGO response code — a nonzero code distinct
from GO (only those two facts are used by the protocol logic). -/
def NOGO : Int := 2

/-- Modelled from the spec: outcome codes HIT, FALSE_ALARM, CORRECT_REJECT,
MISS — four distinct nonzero codes (States.h of MultiSens is not under
src/; only distinctness is relied on). -/
def OUTCOME_HIT : Int := 1

/-- False-alarm outcome code; see `OUTCOME_HIT`. -/
def OUTCOME_FA : Int := 2

/-- Correct-reject outcome code; see `OUTCOME_HIT`. -/
def OUTCOME_CR : Int := 3

/-- Miss outcome code; see `OUTCOME_HIT`. -/
def OUTCOME_MISS : Int := 4

/-- Modelled from the spec: chat.h's `__TRIAL_SPEAK_NO` token value (chat.h
is not under src/); the protocol logic only compares the TOE parameter
against it for equality. -/
def __TRIAL_SPEAK_NO : Int := 2

/-- `NUM_DEVICES` (config.h is not under src/; States.cpp's `devIndices`
initializer lists exactly two entries). -/
def NUM_DEVICES : Nat := 2

/-- `devIndices` from States.cpp: `{ tpidx_STPRIDX, tpidx_SPKRIDX }`. -/
def devIndices : List Nat := [tpidx_STPRIDX, tpidx_SPKRIDX]

/-- `param_values` defaults from States.cpp. -/
def default_param_values : List Int :=
  [0, 0, 2000, 0, 50, 500, 6000, 3000, 45000, 1, 1]

/-- `default_results_values` from States.cpp (`{0, 0}`). -/
def default_results_values : List Int := [0, 0]

/-- The shared mutable globals of the MultiSens sketch that the state hooks
read and write: the trial-parameter table, the trial-result table and the
shared `next_state` variable. -/
structure MsGlobals : Type where
  param_values : List Int
  results_values : List Int
  next_state : STATE_TYPE
deriving DecidableEq

/-- Read `param_values[i]` (C array read; the tables always have their
declared length, so the default is never consulted on in-range indices). -/
def paramValues (g : MsGlobals) (i : Nat) : Int :=
  g.param_values.getD i 0

/-- Read `results_values[i]`. -/
def getResult (g : MsGlobals) (i : Nat) : Int :=
  g.results_values.getD i 0

/-- Write `results_values[i] = v`. -/
def setResult (g : MsGlobals) (i : Nat) (v : Int) : MsGlobals :=
  { g with results_values := g.results_values.set i v }

/-- The per-trial result reset performed in the TRIAL_START case of
`stateDependentOperations` / the main loop:
`for(i=0; i < N_TRIAL_RESULTS; i++) results_values[i] = default_results_values[i]`. -/
def trialStartResetResults (g : MsGlobals) : MsGlobals :=
  { g with results_values :=
      ((List.range N_TRIAL_RESULTS).foldl
        (fun r i => r.set i (default_results_values.getD i 0)) g.results_values) }

/-- The protected fields of the `StimPeriod` object together with the
globals its hooks touch.  `licked` is cleared by `s_setup`; the code that
sets it on a lick during STIM_PERIOD lives outside src/ (modelled from the
spec: a lick during the stimulus period marks the object's `licked` flag). -/
structure StimPeriodFields : Type where
  g : MsGlobals
  licked : Bool
  devFcns : List Int
deriving DecidableEq

/-- `StimPeriod::s_setup` from States.cpp: sets
`duration = param_values[tpidx_REW_DUR]` (note: REW_DUR, not STIMDUR),
clears `licked`, and snapshots `devFcns[i] = param_values[devIndices[i]]`. -/
def StimPeriod_s_setup (s : TimedState StimPeriodFields) : TimedState StimPeriodFields :=
  { s with
    duration := (paramValues s.user.g tpidx_REW_DUR).toNat,
    user := { s.user with
      licked := false,
      devFcns := devIndices.map (fun i => paramValues s.user.g i) } }

/-- `StimPeriod::loop` from States.cpp: drives each device's per-tick action
and conditionally asserts the solenoid line — all hardware I/O with no
FSM-visible state change, so the embedded hook is the identity. -/
def StimPeriod_loop (s : TimedState StimPeriodFields) : TimedState StimPeriodFields :=
  s

/-- `StimPeriod::s_finish` from States.cpp: finalizes the devices and drops
the solenoid line (hardware I/O, omitted), then sets
`next_state = ERROR` if `licked`, else `next_state = RESPONSE_WINDOW`. -/
def StimPeriod_s_finish (s : TimedState StimPeriodFields) : TimedState StimPeriodFields :=
  { s with user := { s.user with g := { s.user.g with
      next_state := if s.user.licked then STATE_TYPE.ERROR else STATE_TYPE.RESPONSE_WINDOW } } }

/-- The `StimPeriod` subclass as an engine hook set. -/
def stimPeriodHooks : StateHooks StimPeriodFields where
  s_setup := StimPeriod_s_setup
  loop := StimPeriod_loop
  s_finish := StimPeriod_s_finish

/-- The protected fields of `StateResponseWindow` plus the globals.
`lick_sensor` models the boolean read `analogRead(LICK_DETECTOR_PIN) >
lickThresh` performed by `set_licking_variables`/`checkLicks`; the
environment writes it between ticks. -/
structure SrwFields : Type where
  g : MsGlobals
  my_licking : Bool
  my_rewards_this_trial : Nat
  lick_sensor : Bool
deriving DecidableEq

/-- `StateResponseWindow::update` from States.cpp:
`my_licking = checkLicks()`. -/
def StateResponseWindow_update (s : TimedState SrwFields) : TimedState SrwFields :=
  { s with user := { s.user with my_licking := s.user.lick_sensor } }

/-- `StateResponseWindow::s_setup` from States.cpp:
`duration = param_values[tpidx_RESP_WIN_DUR]`. -/
def StateResponseWindow_s_setup (s : TimedState SrwFields) : TimedState SrwFields :=
  { s with duration := (paramValues s.user.g tpidx_RESP_WIN_DUR).toNat }

/-- `StateResponseWindow::loop` from States.cpp, line for line:
max-rewards early stop; return if not licking; latch RESPONSE on first
response; then hit / empty-branch (TOE false) / false-alarm dispatch. -/
def StateResponseWindow_loop (s : TimedState SrwFields) : TimedState SrwFields :=
  let g := s.user.g
  let licking := s.user.lick_sensor
  if (s.user.my_rewards_this_trial : Int) ≥ paramValues g tpidx_MRT then
    { s with
      flag_stop := true,
      user := { s.user with g := { g with next_state := STATE_TYPE.INTER_TRIAL_INTERVAL } } }
  else if licking = false then
    s
  else
    let current_response := GO
    let g1 := if getResult g tridx_RESPONSE = 0 then
        setResult g tridx_RESPONSE current_response
      else g
    if current_response = GO ∧ paramValues g1 tpidx_REW = GO then
      { s with user := { s.user with
          my_rewards_this_trial := s.user.my_rewards_this_trial + 1,
          g := setResult { g1 with next_state := STATE_TYPE.REWARD } tridx_OUTCOME OUTCOME_HIT } }
    else if paramValues g1 tpidx_TERMINATE_ON_ERR = __TRIAL_SPEAK_NO then
      { s with user := { s.user with g := g1 } }
    else
      { s with user := { s.user with
          g := { setResult g1 tridx_OUTCOME OUTCOME_FA with next_state := STATE_TYPE.ERROR } } }

/-- `StateResponseWindow::s_finish` from States.cpp, with the braces exactly
as in the source: the whole body, *including* the
`next_state = INTER_TRIAL_INTERVAL` assignment under the comment
"In any case the trial is over", is inside the
`if (results_values[tridx_RESPONSE] == 0)` block. -/
def StateResponseWindow_s_finish (s : TimedState SrwFields) : TimedState SrwFields :=
  let g := s.user.g
  if getResult g tridx_RESPONSE = 0 then
    let g1 := setResult g tridx_RESPONSE NOGO
    let g2 := if paramValues g1 tpidx_REW = NOGO then
        setResult g1 tridx_OUTCOME OUTCOME_CR
      else
        setResult g1 tridx_OUTCOME OUTCOME_MISS
    { s with user := { s.user with g := { g2 with next_state := STATE_TYPE.INTER_TRIAL_INTERVAL } } }
  else
    s

/-- The `StateResponseWindow` subclass as an engine hook set. -/
def srwHooks : StateHooks SrwFields where
  s_setup := StateResponseWindow_s_setup
  loop := StateResponseWindow_loop
  s_finish := StateResponseWindow_s_finish

/-- `StateErrorTimeout::s_setup` from States.cpp:
`duration = param_values[tpidx_ERROR_TIMEOUT]`. -/
def StateErrorTimeout_s_setup (s : TimedState MsGlobals) : TimedState MsGlobals :=
  { s with duration := (paramValues s.user tpidx_ERROR_TIMEOUT).toNat }

/-- `StateErrorTimeout::s_finish` from States.cpp:
`next_state = INTER_TRIAL_INTERVAL`. -/
def StateErrorTimeout_s_finish (s : TimedState MsGlobals) : TimedState MsGlobals :=
  { s with user := { s.user with next_state := STATE_TYPE.INTER_TRIAL_INTERVAL } }

/-- The `StateErrorTimeout` subclass; its `loop` is the inherited no-op. -/
def stateErrorTimeoutHooks : StateHooks MsGlobals where
  s_setup := StateErrorTimeout_s_setup
  loop := fun s => s
  s_finish := StateErrorTimeout_s_finish

/-- `safe_int_convert(char *string_data, long &variable)` from MultiSens.ino.
The `sscanf(string_data, "%ld", &conversion_var)` parse is modelled by its
result: `some v` when one integer was parsed, `none` otherwise.  Returns
`(status, variable)`: on a successful parse the variable is set (any parsed
value, including 0) and status is 0; otherwise status 1 and the variable is
left unchanged. -/
def safe_int_convert (parsed : Option Int) (var0 : Int) : Int × Int :=
  match parsed with
  | some v => (0, v)
  | none => (1, var0)

/-- `safe_int_convert(String string_data, long unsigned int &variable)` from
the simple test protocol (first file of part_001).  `string_data.toInt()` is
modelled by its result `conversion_var` (Arduino `String::toInt` returns 0
when the token is not numeric).  Returns 1 and leaves the variable unchanged
when the conversion result is 0; otherwise sets the variable. -/
def safe_int_convert_toint (conversion_var : Int) (var0 : Int) : Int × Int :=
  if conversion_var = 0 then (1, var0)
  else (0, conversion_var)

/-- `take_action` from MultiSens.ino, for the SET path: looks `argument1` up
in `param_abbrevs` (the `strcmp` scan), returns 4 when absent; otherwise
runs `safe_int_convert` on `param_values[idx]`, returning 5 on conversion
failure and 0 (with the table entry updated) on success.  `ACT` returns 6,
anything else 2.  Returns `(status, param table)`. -/
def take_action (protocol_cmd argument1 : String) (parsed : Option Int)
    (pv : List Int) : Int × List Int :=
  if protocol_cmd = "SET" then
    match param_abbrevs.findIdx? (fun a => a = argument1) with
    | none => (4, pv)
    | some idx =>
      let r := safe_int_convert parsed (pv.getD idx 0)
      if r.1 ≠ 0 then (5, pv) else (0, pv.set idx r.2)
  else if protocol_cmd = "ACT" then (6, pv)
  else (2, pv)

/-- `take_action` from the simple test protocol (first file of part_001):
only `SET ITI <value>` is recognized; conversion failure returns 5 and
leaves the parameter unchanged.  Returns `(status, inter_trial_interval)`. -/
def take_action_simple (protocol_cmd argument1 : String) (conversion_var : Int)
    (iti : Int) : Int × Int :=
  if protocol_cmd = "SET" then
    if argument1 = "ITI" then
      let r := safe_int_convert_toint conversion_var iti
      if r.1 ≠ 0 then (5, iti) else (0, r.2)
    else (4, iti)
  else (2, iti)

theorem getD_zero_set_one (l : List Int) (v : Int) : (l.set 1 v).getD 0 0 = l.getD 0 0 := by
  cases l with
  | nil => rfl
  | cons a t => rfl

theorem getD_one_set_zero (l : List Int) (v : Int) : (l.set 0 v).getD 1 0 = l.getD 1 0 := by
  cases l with
  | nil => rfl
  | cons a t => rfl

/-- A `StateResponseWindow` engine state at the end of a response window in
which no response was ever latched and the trial's REW parameter is at its
default (0, not NOGO). -/
def srwExpireMiss : TimedState SrwFields :=
  ⟨45000, false, 45000, 0,
    ⟨⟨default_param_values, [0, 0], STATE_TYPE.RESPONSE_WINDOW⟩, false, 0, false⟩⟩

/-- Parameter table with REW set to the NOGO code. -/
def rewNogoParams : List Int :=
  [0, 0, 2000, 2, 50, 500, 6000, 3000, 45000, 1, 1]

/-- Like `srwExpireMiss` but on a trial whose REW parameter equals NOGO. -/
def srwExpireCR : TimedState SrwFields :=
  ⟨45000, false, 45000, 0,
    ⟨⟨rewNogoParams, [0, 0], STATE_TYPE.RESPONSE_WINDOW⟩, false, 0, false⟩⟩

/-- A `StateResponseWindow` engine state at the end of a response window in
which RESPONSE was already latched to GO earlier in the window. -/
def srwExpireLatched : TimedState SrwFields :=
  ⟨45000, false, 45000, 0,
    ⟨⟨default_param_values, [GO, OUTCOME_HIT], STATE_TYPE.RESPONSE_WINDOW⟩, false, 0, false⟩⟩

/-- C3 (behaviour the code actually has): when RESPONSE is still unset,
`StateResponseWindow::s_finish` latches RESPONSE=NOGO, scores
CORRECT_REJECT or MISS according to REW, and sets
next_state=INTER_TRIAL_INTERVAL; but when RESPONSE was already latched the
whole body — including the next-state assignment, which sits inside the
`RESPONSE == 0` block despite the "In any case the trial is over" comment —
is skipped, so `s_finish` is the identity and next_state is left at
RESPONSE_WINDOW. -/
theorem claim_C3_response_window_finish :
    ((StateResponseWindow_s_finish srwExpireMiss).user.g.results_values =
        [NOGO, OUTCOME_MISS] ∧
      (StateResponseWindow_s_finish srwExpireMiss).user.g.next_state =
        STATE_TYPE.INTER_TRIAL_INTERVAL) ∧
    ((StateResponseWindow_s_finish srwExpireCR).user.g.results_values =
        [NOGO, OUTCOME_CR] ∧
      (StateResponseWindow_s_finish srwExpireCR).user.g.next_state =
        STATE_TYPE.INTER_TRIAL_INTERVAL) ∧
    (StateResponseWindow_s_finish srwExpireLatched = srwExpireLatched ∧
      srwExpireLatched.user.g.next_state = STATE_TYPE.RESPONSE_WINDOW) := by
  decide

/-- An idle `StimPeriod` engine state with the default parameter table. -/
def spDefault : TimedState StimPeriodFields :=
  ⟨0, false, 2000, 0,
    ⟨⟨default_param_values, [0, 0], STATE_TYPE.STIM_PERIOD⟩, false, [0, 0]⟩⟩

/-- C4 (behaviour the code actually has): at every activation,
`StimPeriod::s_setup` sets the state's duration from the REW_DUR parameter,
not from STIMDUR; with the default table the deadline is computed from
duration 50 while the STIMDUR parameter holds 2000. -/
theorem claim_C4_stim_duration :
    (∀ s : TimedState StimPeriodFields,
      (stimPeriodHooks.s_setup s).duration = (paramValues s.user.g tpidx_REW_DUR).toNat) ∧
    activationDuration stimPeriodHooks spDefault 0 = 50 ∧
    paramValues spDefault.user.g tpidx_STIM_DUR = 2000 ∧ (50 : Nat) ≠ 2000 := by
  refine ⟨fun s => rfl, ?_, ?_, ?_⟩ <;> decide

/-- C5: part 1 — whenever the STIM_PERIOD deadline expires with the `licked`
flag set, the tick runs `StimPeriod::s_finish`, which sets
next_state = ERROR whatever the parameter table (in particular whatever REW)
says.  Part 2 — a full `StateErrorTimeout` activation then sets
next_state = INTER_TRIAL_INTERVAL on the first tick at or past
`t0 + TO`, the error-timeout duration. -/
theorem claim_C5_lick_error_path :
    (∀ (s : TimedState StimPeriodFields) (t : Nat),
      s.user.licked = true → s.timer ≠ 0 → s.timer ≤ t →
      ((run stimPeriodHooks s t).1).user.g.next_state = STATE_TYPE.ERROR) ∧
    (∀ (s : TimedState MsGlobals) (t0 : Nat) (ts : List Nat) (j : Nat),
      s.timer = 0 →
      (∀ k < j, (t0 :: ts).getD k 0 < t0 + (paramValues s.user tpidx_ERROR_TIMEOUT).toNat) →
      j < (t0 :: ts).length →
      t0 + (paramValues s.user tpidx_ERROR_TIMEOUT).toNat ≤ (t0 :: ts).getD j 0 →
      ((runSeq stateErrorTimeoutHooks s ((t0 :: ts).take (j + 1))).1).user.next_state =
        STATE_TYPE.INTER_TRIAL_INTERVAL) := by
  constructor
  · intro s t hl ht hle
    rw [run_active_finish stimPeriodHooks s t ht (Or.inr hle)]
    show (StimPeriod_s_finish { s with time_of_last_call := t }).user.g.next_state = _
    simp [StimPeriod_s_finish, hl]
  · intro s t0 ts j h0 hb hj hat
    have hdef : activationDuration stateErrorTimeoutHooks s t0 =
        (paramValues s.user tpidx_ERROR_TIMEOUT).toNat := rfl
    have hid : ∀ u, stateErrorTimeoutHooks.loop u = u := fun u => rfl
    cases j with
    | zero =>
      have hd : activationDuration stateErrorTimeoutHooks s t0 = 0 := by
        rw [hdef]
        simp only [List.getD_cons_zero] at hat
        omega
      rw [show (t0 :: ts).take 1 = [t0] from rfl, runSeq_cons,
        run_inactive_zero _ s t0 h0 hd]
      rfl
    | succ j =>
      have hd : 0 < activationDuration stateErrorTimeoutHooks s t0 := by
        have h := hb 0 (Nat.succ_pos j)
        simp only [List.getD_cons_zero] at h
        rw [hdef]
        omega
      have hp := run_inactive_pos stateErrorTimeoutHooks s t0 h0 hd
      rw [show (t0 :: ts).take (j + 2) = t0 :: ts.take (j + 1) from rfl, runSeq_cons, hp, hid]
      have hstate := runSeq_deadline_state stateErrorTimeoutHooks hid j ts
        (afterSetup stateErrorTimeoutHooks s t0)
        (by rw [afterSetup_timer]; omega)
        (afterSetup_flag _ s t0)
        (fun k hk => by
          have h := hb (k + 1) (Nat.succ_lt_succ hk)
          rw [afterSetup_timer, hdef]
          exact h)
        (by simpa [Nat.succ_lt_succ_iff] using hj)
        (by
          rw [afterSetup_timer, hdef]
          exact hat)
      rw [hstate]
      rfl

/-- A `StimPeriod` engine state mid-activation with the `licked` flag set. -/
def spLicked : TimedState StimPeriodFields :=
  ⟨100, false, 50, 0,
    ⟨⟨default_param_values, [0, 0], STATE_TYPE.STIM_PERIOD⟩, true, [0, 0]⟩⟩

/-- An idle `StateErrorTimeout` engine state with the default parameters
(error timeout TO = 6000). -/
def etIdle : TimedState MsGlobals :=
  ⟨0, false, 6000, 0, ⟨default_param_values, [0, 0], STATE_TYPE.ERROR⟩⟩

/-- Witness for C5: a licked stim period whose deadline (100) expires at
tick 100 goes to ERROR; an error timeout activated at time 0 with TO = 6000
reaches INTER_TRIAL_INTERVAL on the tick at time 6000. -/
theorem claim_C5_witness :
    ((run stimPeriodHooks spLicked 100).1).user.g.next_state = STATE_TYPE.ERROR ∧
    ((runSeq stateErrorTimeoutHooks etIdle ([0, 6000].take 2)).1).user.next_state =
      STATE_TYPE.INTER_TRIAL_INTERVAL := by
  constructor
  · exact claim_C5_lick_error_path.1 spLicked 100 rfl (by decide) (by decide)
  · exact claim_C5_lick_error_path.2 etIdle 0 [6000] 1 rfl (by decide) (by decide) (by decide)

/-- Once RESPONSE is latched nonzero, `StateResponseWindow::loop` never
rewrites it: the latch is guarded by `results_values[tridx_RESPONSE] == 0`
and the outcome writes touch only the OUTCOME slot. -/
theorem srw_loop_latched (s : TimedState SrwFields)
    (h : getResult s.user.g tridx_RESPONSE ≠ 0) :
    getResult (StateResponseWindow_loop s).user.g tridx_RESPONSE =
      getResult s.user.g tridx_RESPONSE := by
  by_cases h1 : (s.user.my_rewards_this_trial : Int) ≥ paramValues s.user.g tpidx_MRT
  · simp only [StateResponseWindow_loop]
    rw [if_pos h1]
    rfl
  · by_cases h2 : s.user.lick_sensor = false
    · simp only [StateResponseWindow_loop]
      rw [if_neg h1, if_pos h2]
    · simp only [StateResponseWindow_loop]
      rw [if_neg h1, if_neg h2, if_neg h]
      by_cases h3 : paramValues s.user.g tpidx_REW = GO
      · rw [if_pos (show True ∧ paramValues s.user.g tpidx_REW = GO from ⟨trivial, h3⟩)]
        show ((s.user.g.results_values.set 1 OUTCOME_HIT).getD 0 0) = _
        rw [getD_zero_set_one]
        rfl
      · have hhit : ¬(True ∧ paramValues s.user.g tpidx_REW = GO) := fun hc => h3 hc.2
        rw [if_neg hhit]
        by_cases h4 : paramValues s.user.g tpidx_TERMINATE_ON_ERR = __TRIAL_SPEAK_NO
        · rw [if_pos h4]
        · rw [if_neg h4]
          show ((s.user.g.results_values.set 1 OUTCOME_FA).getD 0 0) = _
          rw [getD_zero_set_one]
          rfl

/-- Once RESPONSE is latched nonzero, `StateResponseWindow::s_finish` is the
identity (its whole body is guarded by `RESPONSE == 0`). -/
theorem srw_finish_latched (s : TimedState SrwFields)
    (h : getResult s.user.g tridx_RESPONSE ≠ 0) :
    StateResponseWindow_s_finish s = s := by
  simp only [StateResponseWindow_s_finish]
  rw [if_neg h]

/-- C6: on a response-window loop tick with
`my_rewards_this_trial >= param_values[tpidx_MRT]`, the loop hook sets the
stop-early flag and writes next_state = INTER_TRIAL_INTERVAL; a later tick
then fires `s_finish` immediately whatever its time (ending the state before
its duration elapses); and neither `s_setup` nor `update` ever writes the
stop-early flag or the shared next-state output. -/
theorem claim_C6_max_rewards_stop :
    (∀ s : TimedState SrwFields,
      (s.user.my_rewards_this_trial : Int) ≥ paramValues s.user.g tpidx_MRT →
      (StateResponseWindow_loop s).flag_stop = true ∧
        (StateResponseWindow_loop s).user.g.next_state = STATE_TYPE.INTER_TRIAL_INTERVAL) ∧
    (∀ (s : TimedState SrwFields) (t : Nat), s.timer ≠ 0 → s.flag_stop = true →
      (run srwHooks s t).2 = [HookCall.finish]) ∧
    (∀ s : TimedState SrwFields,
      (StateResponseWindow_s_setup s).user.g.next_state = s.user.g.next_state ∧
        (StateResponseWindow_s_setup s).flag_stop = s.flag_stop) ∧
    (∀ s : TimedState SrwFields,
      (StateResponseWindow_update s).user.g.next_state = s.user.g.next_state ∧
        (StateResponseWindow_update s).flag_stop = s.flag_stop) := by
  refine ⟨?_, ?_, fun s => ⟨rfl, rfl⟩, fun s => ⟨rfl, rfl⟩⟩
  · intro s h
    simp only [StateResponseWindow_loop]
    rw [if_pos h]
    exact ⟨rfl, rfl⟩
  · intro s t ht hf
    rw [run_active_finish srwHooks s t ht (Or.inl hf)]

/-- A response-window engine state mid-window with the default parameter
table (MRT = 1) and one reward already delivered this trial. -/
def srwMaxed : TimedState SrwFields :=
  ⟨45000, false, 45000, 0,
    ⟨⟨default_param_values, [GO, OUTCOME_HIT], STATE_TYPE.RESPONSE_WINDOW⟩, false, 1, false⟩⟩

/-- Witness for C6 at `srwMaxed` (rewards 1 ≥ MRT 1): loop stops early and
points at the inter-trial interval; with the flag set, the next tick (time
10, far before the 45000 deadline) fires finish; setup and update at the
same state leave flag and next-state alone. -/
theorem claim_C6_witness :
    ((StateResponseWindow_loop srwMaxed).flag_stop = true ∧
      (StateResponseWindow_loop srwMaxed).user.g.next_state =
        STATE_TYPE.INTER_TRIAL_INTERVAL) ∧
    (run srwHooks { srwMaxed with flag_stop := true } 10).2 = [HookCall.finish] ∧
    ((StateResponseWindow_s_setup srwMaxed).user.g.next_state =
        srwMaxed.user.g.next_state ∧
      (StateResponseWindow_s_setup srwMaxed).flag_stop = srwMaxed.flag_stop) ∧
    ((StateResponseWindow_update srwMaxed).user.g.next_state =
        srwMaxed.user.g.next_state ∧
      (StateResponseWindow_update srwMaxed).flag_stop = srwMaxed.flag_stop) :=
  ⟨claim_C6_max_rewards_stop.1 srwMaxed (by decide),
    claim_C6_max_rewards_stop.2.1 { srwMaxed with flag_stop := true } 10
      (by decide) rfl,
    claim_C6_max_rewards_stop.2.2.1 srwMaxed,
    claim_C6_max_rewards_stop.2.2.2 srwMaxed⟩

/-- C8: part 1 — the TRIAL_START per-trial reset leaves the result table
exactly equal to `default_results_values`.  Part 2 — once RESPONSE is
latched nonzero, no later response-window engine tick (any combination of
setup/loop/finish the engine can fire) changes it; part 3 — nor does
`update`. -/
theorem claim_C8_results_reset_and_latch :
    (∀ g : MsGlobals, g.results_values.length = N_TRIAL_RESULTS →
      (trialStartResetResults g).results_values = default_results_values) ∧
    (∀ (s : TimedState SrwFields) (t : Nat),
      getResult s.user.g tridx_RESPONSE ≠ 0 →
      getResult ((run srwHooks s t).1).user.g tridx_RESPONSE =
        getResult s.user.g tridx_RESPONSE) ∧
    (∀ s : TimedState SrwFields,
      getResult (StateResponseWindow_update s).user.g tridx_RESPONSE =
        getResult s.user.g tridx_RESPONSE) := by
  refine ⟨?_, ?_, fun s => rfl⟩
  · intro g hg
    obtain ⟨a, b, hab⟩ := List.length_eq_two.mp hg
    simp only [trialStartResetResults]
    rw [hab]
    rfl
  · intro s t h
    by_cases h0 : s.timer = 0
    · rcases Nat.eq_zero_or_pos (activationDuration srwHooks s t) with hz | hp
      · rw [run_inactive_zero srwHooks s t h0 hz]
        exact congrArg (fun u => getResult u.user.g tridx_RESPONSE)
          (srw_finish_latched (afterSetup srwHooks s t) h)
      · rw [run_inactive_pos srwHooks s t h0 hp]
        exact srw_loop_latched (afterSetup srwHooks s t) h
    · rcases Decidable.em (s.flag_stop = true ∨ s.timer ≤ t) with hc | hc
      · rw [run_active_finish srwHooks s t h0 hc]
        exact congrArg (fun u => getResult u.user.g tridx_RESPONSE)
          (srw_finish_latched { s with time_of_last_call := t } h)
      · push_neg at hc
        have h1 : s.flag_stop = false := by simpa using hc.1
        rw [run_active_loop srwHooks s t h0 h1 hc.2]
        exact srw_loop_latched { s with time_of_last_call := t } h

/-- A globals record whose result table holds stale values from a previous
trial. -/
def msStale : MsGlobals :=
  ⟨default_param_values, [5, 7], STATE_TYPE.TRIAL_START⟩

/-- A response-window engine state mid-window with RESPONSE already latched
to GO. -/
def srwLatchedMid : TimedState SrwFields :=
  ⟨45000, false, 45000, 0,
    ⟨⟨default_param_values, [GO, 0], STATE_TYPE.RESPONSE_WINDOW⟩, false, 0, true⟩⟩

/-- Witness for C8: resetting the stale table yields the defaults; a tick at
time 3 on a latched response window leaves RESPONSE at GO; so does update. -/
theorem claim_C8_witness :
    (trialStartResetResults msStale).results_values = default_results_values ∧
    getResult ((run srwHooks srwLatchedMid 3).1).user.g tridx_RESPONSE =
      getResult srwLatchedMid.user.g tridx_RESPONSE ∧
    getResult (StateResponseWindow_update srwLatchedMid).user.g tridx_RESPONSE =
      getResult srwLatchedMid.user.g tridx_RESPONSE :=
  ⟨claim_C8_results_reset_and_latch.1 msStale (by decide),
    claim_C8_results_reset_and_latch.2.1 srwLatchedMid 3 (by decide),
    claim_C8_results_reset_and_latch.2.2 srwLatchedMid⟩

/-- C9: on a response-window loop tick that detects a lick (max rewards not
yet reached) on a trial whose REW parameter is not GO and whose
terminate-on-error parameter equals the TrialSpeak "no" token, the loop
takes the empty branch: the shared next-state output and the OUTCOME result
slot are left unchanged (RESPONSE may still get latched to GO). -/
theorem claim_C9_toe_false_frame (s : TimedState SrwFields)
    (hlick : s.user.lick_sensor = true)
    (hmrt : (s.user.my_rewards_this_trial : Int) < paramValues s.user.g tpidx_MRT)
    (hrew : paramValues s.user.g tpidx_REW ≠ GO)
    (htoe : paramValues s.user.g tpidx_TERMINATE_ON_ERR = __TRIAL_SPEAK_NO) :
    (StateResponseWindow_loop s).user.g.next_state = s.user.g.next_state ∧
      getResult (StateResponseWindow_loop s).user.g tridx_OUTCOME =
        getResult s.user.g tridx_OUTCOME := by
  have h1 : ¬((s.user.my_rewards_this_trial : Int) ≥ paramValues s.user.g tpidx_MRT) :=
    not_le.mpr hmrt
  have h2 : ¬(s.user.lick_sensor = false) := by
    simp [hlick]
  simp only [StateResponseWindow_loop]
  rw [if_neg h1, if_neg h2]
  by_cases hlatch : getResult s.user.g tridx_RESPONSE = 0
  · rw [if_pos hlatch]
    have hhit : ¬(True ∧
        paramValues (setResult s.user.g tridx_RESPONSE GO) tpidx_REW = GO) :=
      fun hc => hrew hc.2
    rw [if_neg hhit]
    have htoe1 : paramValues (setResult s.user.g tridx_RESPONSE GO)
        tpidx_TERMINATE_ON_ERR = __TRIAL_SPEAK_NO := htoe
    rw [if_pos htoe1]
    refine ⟨rfl, ?_⟩
    show ((s.user.g.results_values.set 0 GO).getD 1 0) = _
    rw [getD_one_set_zero]
    rfl
  · rw [if_neg hlatch]
    have hhit : ¬(True ∧ paramValues s.user.g tpidx_REW = GO) :=
      fun hc => hrew hc.2
    rw [if_neg hhit, if_pos htoe]
    exact ⟨rfl, rfl⟩

/-- Parameter table with terminate-on-error set to the TrialSpeak "no"
token. -/
def toeOffParams : List Int :=
  [0, 0, 2000, 0, 50, 500, 6000, 3000, 45000, 1, 2]

/-- A response-window engine state mid-window, licking, on an unrewarded
trial with terminate-on-error off. -/
def srwToeOff : TimedState SrwFields :=
  ⟨45000, false, 45000, 0,
    ⟨⟨toeOffParams, [0, 0], STATE_TYPE.RESPONSE_WINDOW⟩, false, 0, true⟩⟩

/-- Witness for C9 at `srwToeOff`. -/
theorem claim_C9_witness :
    (StateResponseWindow_loop srwToeOff).user.g.next_state =
        srwToeOff.user.g.next_state ∧
      getResult (StateResponseWindow_loop srwToeOff).user.g tridx_OUTCOME =
        getResult srwToeOff.user.g tridx_OUTCOME :=
  claim_C9_toe_false_frame srwToeOff rfl (by decide) (by decide) (by decide)

/-- C7 (amended): conversion-failure handling of the two SET paths.
Part 1 — simple protocol (`String::toInt` conversion): whenever the
conversion result is 0 — which covers both a genuinely non-numeric token
and a literal "0", since `toInt` returns 0 on error — the command reports
conversion error 5 and the ITI parameter keeps its previous value.
Part 2 — MultiSens (`sscanf` conversion): a token that does not parse
reports conversion error 5 and mutates no table entry.
Part 3 — the deviation: in MultiSens a token that parses to the reserved
error value 0 is *accepted*: status 0 and the target entry is set to 0. -/
theorem claim_C7_set_conversion :
    (∀ (conversion_var iti : Int), conversion_var = 0 →
      take_action_simple "SET" "ITI" conversion_var iti = (5, iti)) ∧
    (∀ (name : String) (idx : Nat) (pv : List Int),
      param_abbrevs.findIdx? (fun a => a = name) = some idx →
      take_action "SET" name none pv = (5, pv)) ∧
    (∀ (name : String) (idx : Nat) (pv : List Int),
      param_abbrevs.findIdx? (fun a => a = name) = some idx →
      take_action "SET" name (some 0) pv = (0, pv.set idx 0)) := by
  refine ⟨?_, ?_, ?_⟩
  · intro conversion_var iti hz
    subst hz
    rfl
  · intro name idx pv heq
    simp only [take_action]
    rw [heq]
    rfl
  · intro name idx pv heq
    simp only [take_action]
    rw [heq]
    rfl

/-- C7 counterexample: the SET command with value token "0" (which `sscanf`
parses successfully to the reserved error value 0) targeting STIMDUR is
*not* reported as a conversion error: it returns status 0 and overwrites
the parameter (previously 2000) with 0. -/
theorem claim_C7_counterexample :
    take_action "SET" "STIMDUR" (some 0) default_param_values =
      (0, [0, 0, 0, 0, 50, 500, 6000, 3000, 45000, 1, 1]) ∧
    default_param_values.getD tpidx_STIM_DUR 0 = 2000 := by
  decide

/-- Witness for C7: `SET ITI 0` in the simple protocol errors out leaving
the value 42; an unparseable token for MRT in MultiSens errors out leaving
the defaults; `SET MRT 0` in MultiSens is accepted and zeroes the entry. -/
theorem claim_C7_witness :
    take_action_simple "SET" "ITI" 0 42 = (5, 42) ∧
    take_action "SET" "MRT" none default_param_values = (5, default_param_values) ∧
    take_action "SET" "MRT" (some 0) default_param_values =
      (0, default_param_values.set 9 0) := by
  refine ⟨?_, ?_, ?_⟩
  · exact claim_C7_set_conversion.1 0 42 rfl
  · exact claim_C7_set_conversion.2.1 "MRT" 9 default_param_values (by decide)
  · exact claim_C7_set_conversion.2.2 "MRT" 9 default_param_values (by decide)

/-- `StateResponseWindow::loop` never touches the engine timer: every branch
leaves the `timer` field alone. -/
theorem srw_loop_timer (u : TimedState SrwFields) :
    (StateResponseWindow_loop u).timer = u.timer := by
  simp only [StateResponseWindow_loop]
  repeat' split
  all_goals rfl

/-- An idle `StateResponseWindow` engine state with the default parameters
(RWIN = 45000, MRT = 1), no rewards yet, lick sensor quiet. -/
def srwIdle : TimedState SrwFields :=
  ⟨0, false, 45000, 0,
    ⟨⟨default_param_values, [0, 0], STATE_TYPE.RESPONSE_WINDOW⟩, false, 0, false⟩⟩

/-- Witness for C2: part 1 at the real stop-early-capable
`StateResponseWindow` subclass — an activation from `srwIdle` with ticks at
times 0 and 45000 never sets the flag, and finish fires on the tick at time
45000, the first at or past the deadline `0 + RWIN`; part 2 at a
mid-activation state with deadline 100, flag set during the tick at time 5,
finish on the very next tick (time 7 < 100). -/
theorem claim_C2_witness :
    ((runSeq srwHooks srwIdle ([0, 45000].take 2)).2 =
      HookCall.setup :: (List.replicate 1 HookCall.loop ++ [HookCall.finish])) ∧
    (run stopHooks midState 5).2 = [HookCall.loop] ∧
      (run stopHooks (run stopHooks midState 5).1 7).2 = [HookCall.finish] := by
  constructor
  · exact claim_C2_finish_timing.1 SrwFields srwHooks srw_loop_timer
      srwIdle 0 [45000] 1 rfl (by decide) (by decide) (by decide) (by decide)
  · exact claim_C2_finish_timing.2 Unit stopHooks (fun u => rfl)
      midState 5 7 (by decide) rfl (by decide) rfl
